import Mathlib

/-
Verification of the morning-report orchestration pipeline against its
specification.  The definitions below are a shallow embedding of:
  - `src/core/cli/run_morning_snapshot.py` (session wrapper, per-ticker task,
    vital-knowledge batch task, scheduler, merge step, report-input step),
  - `src/skills/vital_knowledge/research.py` (batch connector),
  - `src/skills/vital_knowledge/macro_news.py` (macro-news connector).
External effects (browser session acquisition, page navigation, AI extraction)
are modelled as explicit outcome parameters: each fallible call is an
`Except String _` value or an `Option _` extraction result supplied by an
environment record, and Python `print` diagnostics that the claims talk about
are modelled as returned lists of strings.  Pydantic model values fetched by
per-entity connectors are modelled as an opaque `Obj` carrying their Python
truthiness and an opaque `model_dump` payload; `model_dump()` of the concrete
pydantic models used here always yields a non-empty (hence truthy) dict, so a
stored payload slot is truthy iff it is non-`None`.
-/

/-- Session handles are opaque; we only need identity. -/
abbrev Session := Nat

/-- Opaque serialized payload (the result of `model_dump()`). -/
structure Dump where
  data : Nat
deriving DecidableEq, Repr

/-- Opaque value returned by a per-entity fetch function, carrying its Python
truthiness and its serialized form. -/
structure Obj where
  truthy : Bool
  dump : Dump
deriving DecidableEq, Repr

/-- Embedding of pydantic `model_dump()` on an opaque fetched value. -/
def model_dump (v : Obj) : Dump := v.dump

/-- Python truthiness of an optional fetched value (`None` is falsy). -/
def truthy_opt : Option Obj → Bool
  | none => false
  | some v => v.truthy

/-- Embedding of `x.model_dump() if x else None` on an optional fetched value. -/
def dump_if_truthy : Option Obj → Option Dump
  | none => none
  | some v => if v.truthy then some (model_dump v) else none

/-- Observable outcome of one run of the session wrapper: the value it returns,
whether `stagehand.close()` was attempted, and the logged close error if the
close itself failed. -/
structure SessionRunResult (α : Type) where
  result : Option α
  sessionClosed : Bool
  closeErrorLogged : Option String
deriving Repr

/-- Shallow embedding of `_run_source_with_session`
(`run_morning_snapshot.py` lines 58-83): acquire a dedicated session, run the
fetch body, return `None` on any exception, and in the `finally` block close
the session when one was acquired, swallowing (logging) close errors. -/
def run_source_with_session {α : Type} (acquire : Except String Session)
    (fetch : Session → Except String α)
    (close : Session → Except String Unit) : SessionRunResult α :=
  match acquire with
  | .error _ => { result := none, sessionClosed := false, closeErrorLogged := none }
  | .ok s =>
    let closeLog : Option String :=
      match close s with
      | .error ce => some ce
      | .ok _ => none
    match fetch s with
    | .error _ => { result := none, sessionClosed := true, closeErrorLogged := closeLog }
    | .ok v => { result := some v, sessionClosed := true, closeErrorLogged := closeLog }

/-- Outcomes of the three externally-effectful steps of one per-source attempt:
session acquisition, the fetch body, and the session close. -/
structure SourceRun where
  acquire : Except String Session
  fetchRes : Session → Except String Obj
  closeRes : Session → Except String Unit

/-- Value of `_run_source_with_session` for one source attempt. -/
def source_result (r : SourceRun) : Option Obj :=
  (run_source_with_session r.acquire r.fetchRes r.closeRes).result

/-- Payload recorded for one source in the returned ticker record
(`x.model_dump() if x else None`). -/
def source_payload (r : SourceRun) : Option Dump :=
  dump_if_truthy (source_result r)

/-- Enabled-source flags passed to `process_ticker`
(`run_morning_snapshot.py` lines 131-139). -/
structure SourceConfig where
  use_yahoo_quote : Bool
  use_yahoo_analysis : Bool
  use_marketwatch : Bool
  use_googlenews : Bool
  use_vital_knowledge : Bool
deriving DecidableEq, Repr

/-- Sentiment and themes summary from `research.py` (`VitalKnowledgeSummary`). -/
structure VitalKnowledgeSummary where
  overall_sentiment : Option String
  key_themes : List String
  summary : Option String
deriving DecidableEq, Repr

/-- Single headline from `research.py` (`VitalKnowledgeHeadline`). -/
structure VitalKnowledgeHeadline where
  headline : String
  context : Option String
  sentiment : Option String
deriving DecidableEq, Repr

/-- Per-ticker vital-knowledge report from `research.py`
(`VitalKnowledgeReport`; defaults: empty headline list, empty date list,
no summary). -/
structure VitalKnowledgeReport where
  ticker : String
  headlines : List VitalKnowledgeHeadline
  report_dates : List String
  summary : Option VitalKnowledgeSummary
deriving DecidableEq, Repr

/-- Record returned by `process_ticker` (`run_morning_snapshot.py` lines
198-206): the ticker, the joined error string, and one nullable payload per
source.  The vital-knowledge slot stores the typed report (its dump
reconstructs to the same report). -/
structure TickerRecord where
  ticker : String
  error : Option String
  quote : Option Dump
  analysis : Option Dump
  marketwatch : Option Dump
  googlenews : Option Dump
  vital_knowledge : Option VitalKnowledgeReport
deriving DecidableEq, Repr

/-- Error strings accumulated by `process_ticker`, in source order
(`run_morning_snapshot.py` lines 155-190): one fixed message per enabled
source whose wrapper result is falsy. -/
def process_ticker_errors (cfg : SourceConfig) (qr ar mr gr : SourceRun) : List String :=
  (if cfg.use_yahoo_quote && !(truthy_opt (source_result qr)) then [("YahooQuote failed")] else [])
    ++ (if cfg.use_yahoo_analysis && !(truthy_opt (source_result ar)) then [("YahooAI failed")] else [])
    ++ (if cfg.use_marketwatch && !(truthy_opt (source_result mr)) then [("MarketWatch failed")] else [])
    ++ (if cfg.use_googlenews && !(truthy_opt (source_result gr)) then [("GoogleNews failed")] else [])

/-- Shallow embedding of `process_ticker` (`run_morning_snapshot.py` lines
131-206): run each enabled per-entity source sequentially, each in its own
session wrapper; a falsy result records `None` and an error message; the
vital-knowledge slot is always `None` here (batch-handled outside). -/
def process_ticker (ticker : String) (cfg : SourceConfig)
    (qr ar mr gr : SourceRun) : TickerRecord :=
  let quote : Option Obj := if cfg.use_yahoo_quote then source_result qr else none
  let analysis : Option Obj := if cfg.use_yahoo_analysis then source_result ar else none
  let mw : Option Obj := if cfg.use_marketwatch then source_result mr else none
  let googlenews : Option Obj := if cfg.use_googlenews then source_result gr else none
  let error_messages : List String := process_ticker_errors cfg qr ar mr gr
  { ticker := ticker
    error := if error_messages.isEmpty then none
             else some (String.intercalate ("; ") error_messages)
    quote := dump_if_truthy quote
    analysis := dump_if_truthy analysis
    marketwatch := dump_if_truthy mw
    googlenews := dump_if_truthy googlenews
    vital_knowledge := none }

/-- Index of the four per-entity sources run by `process_ticker`. -/
inductive Src where
  | quote
  | analysis
  | marketwatch
  | googlenews
deriving DecidableEq, Repr

/-- Whether a per-entity source is enabled in the configuration. -/
def src_enabled (cfg : SourceConfig) : Src → Bool
  | .quote => cfg.use_yahoo_quote
  | .analysis => cfg.use_yahoo_analysis
  | .marketwatch => cfg.use_marketwatch
  | .googlenews => cfg.use_googlenews

/-- The `SourceRun` assigned to a given per-entity source. -/
def src_run (qr ar mr gr : SourceRun) : Src → SourceRun
  | .quote => qr
  | .analysis => ar
  | .marketwatch => mr
  | .googlenews => gr

/-- Payload slot of a ticker record for a given per-entity source. -/
def src_slot (r : TickerRecord) : Src → Option Dump
  | .quote => r.quote
  | .analysis => r.analysis
  | .marketwatch => r.marketwatch
  | .googlenews => r.googlenews

/-- Error message appended by `process_ticker` for a given failed source. -/
def src_err_msg : Src → String
  | .quote => ("YahooQuote failed")
  | .analysis => ("YahooAI failed")
  | .marketwatch => ("MarketWatch failed")
  | .googlenews => ("GoogleNews failed")

/-- The fetch body of a source attempt raised, or returned a falsy value
(after a successful session acquisition). -/
def fetch_failed (r : SourceRun) : Prop :=
  ∃ s, r.acquire = Except.ok s ∧
    ((∃ e, r.fetchRes s = Except.error e) ∨
      (∃ v, r.fetchRes s = Except.ok v ∧ v.truthy = false))

/-- Embedding of Python `str.upper()` on ASCII ticker symbols: upper-case
every character. -/
def str_upper (s : String) : String := String.mk (s.data.map Char.toUpper)

/-- External-world outcomes seen by one run of
`fetch_vital_knowledge_headlines_batch` (`research.py` lines 74-328).
`credsMissing` is the `ValueError` raised before login when `Vital_login` /
`Vital_password` are unset; `loginFails` stands for an exception raised by the
login navigation/actions, which happen before the function's `try` block and
therefore propagate to the caller; `bodyFails` stands for an exception raised
anywhere inside the `try` block, which is caught by the function itself.  The
remaining fields are the per-ticker AI extraction results (`None` when the
extraction returned no object). -/
structure BatchEnv where
  credsMissing : Bool
  loginFails : Bool
  bodyFails : Bool
  morning_date : String
  market_close_date : String
  morningBullets : String → Option (List String)
  closeBullets : String → Option (List String)
  combinedTop : String → Option (List String)
  summaryFor : String → Option VitalKnowledgeSummary

/-- Report built for one ticker on the success path of
`fetch_vital_knowledge_headlines_batch` (`research.py` lines 253-321):
bullets from both reports are combined, the AI-chosen top list is capped at 5,
a summary is generated only when some bullet survived, and the ticker is
upper-cased. -/
def vk_success_report (env : BatchEnv) (t : String) : VitalKnowledgeReport :=
  let morning_bullets : List String := (env.morningBullets t).getD []
  let market_close_bullets : List String := (env.closeBullets t).getD []
  let all_bullets : List String := morning_bullets ++ market_close_bullets
  let final_bullets : List String :=
    if all_bullets.isEmpty then [] else ((env.combinedTop t).getD []).take 5
  let summary : Option VitalKnowledgeSummary :=
    if final_bullets.isEmpty then none else env.summaryFor t
  { ticker := str_upper t
    headlines := final_bullets.map (fun b => { headline := b, context := none, sentiment := none })
    report_dates := [env.morning_date, env.market_close_date]
    summary := summary }

/-- Shallow embedding of `fetch_vital_knowledge_headlines_batch`
(`research.py` lines 74-328).  Missing credentials or a login failure raise
out of the function; an exception inside the `try` block is caught and yields
one default (empty) report per ticker, with the ticker upper-cased. -/
def fetch_vital_knowledge_headlines_batch (env : BatchEnv)
    (tickers : List String) : Except String (List VitalKnowledgeReport) :=
  if env.credsMissing then
    Except.error ("Missing Vital_login or Vital_password in .env")
  else if env.loginFails then
    Except.error ("login failed")
  else if env.bodyFails then
    Except.ok (tickers.map (fun t =>
      { ticker := str_upper t, headlines := [], report_dates := [], summary := none }))
  else
    Except.ok (tickers.map (vk_success_report env))

/-- Shallow embedding of `_run_vital_knowledge_batch`
(`run_morning_snapshot.py` lines 108-128): acquire a dedicated session, run
the batch connector, convert the result list to a mapping keyed by the
report's (upper-cased) ticker, and return an empty mapping on any exception.
The mapping is an insertion-ordered association list, looked up with
Python-dict (last-binding-wins) semantics. -/
def run_vital_knowledge_batch (acquire : Except String Session) (env : BatchEnv)
    (tickers : List String) : List (String × VitalKnowledgeReport) :=
  match acquire with
  | .error _ => []
  | .ok _ =>
    match fetch_vital_knowledge_headlines_batch env tickers with
    | .error _ => []
    | .ok results => results.map (fun r => (r.ticker, r))

/-- Python `key in dict` on the association-list mapping. -/
def dict_contains (m : List (String × VitalKnowledgeReport)) (k : String) : Bool :=
  m.any (fun p => p.1 == k)

/-- Python `dict[key]` on the association-list mapping (last binding wins). -/
def dict_get? (m : List (String × VitalKnowledgeReport)) (k : String) :
    Option VitalKnowledgeReport :=
  (m.reverse.find? (fun p => p.1 == k)).map (fun p => p.2)

/-- Diagnostic printed by the merge step for a ticker absent from the batch
mapping (`run_morning_snapshot.py` line 296). -/
def vk_warn (t : String) : String :=
  ("[WARN] ") ++ t ++ (": No Vital Knowledge data from batch")

/-- Update of one ticker record by the merge loop body
(`run_morning_snapshot.py` lines 289-296): overwrite the vital-knowledge slot
when the batch mapping contains the record's (raw) ticker, else leave the
record unchanged. -/
def merge_vk_item (batch : List (String × VitalKnowledgeReport))
    (item : TickerRecord) : TickerRecord :=
  match dict_get? batch item.ticker with
  | some r => { item with vital_knowledge := some r }
  | none => item

/-- Shallow embedding of the merge step (`run_morning_snapshot.py` lines
286-296).  The loop runs only when vital-knowledge is enabled and the batch
mapping is truthy (non-empty); it returns the updated records and the list of
per-ticker diagnostics printed for tickers absent from the mapping. -/
def merge_vital_knowledge (use_vital_knowledge : Bool)
    (batch : List (String × VitalKnowledgeReport))
    (results : List TickerRecord) : List TickerRecord × List String :=
  if use_vital_knowledge && !batch.isEmpty then
    (results.map (merge_vk_item batch),
      results.filterMap (fun item =>
        if dict_contains batch item.ticker then none else some (vk_warn item.ticker)))
  else
    (results, [])

/-- Result of one `page.extract(..., schema=MacroExtract)` call
(`macro_news.py` `MacroExtract`). -/
structure MacroExtract where
  summary : String
  bullets : List String
deriving DecidableEq, Repr

/-- Container returned by `fetch_macro_news` (`macro_news.py`
`MacroNewsSummary`; every field defaults to `None` / empty list). -/
structure MacroNewsSummary where
  morning_date : Option String
  morning_url : Option String
  morning_summary : Option String
  morning_bullets : List String
  market_close_date : Option String
  market_close_url : Option String
  market_close_summary : Option String
  market_close_bullets : List String
deriving DecidableEq, Repr

/-- The `MacroNewsSummary()` value built with all defaults
(`macro_news.py` line 265). -/
def empty_macro_summary : MacroNewsSummary :=
  { morning_date := none, morning_url := none, morning_summary := none,
    morning_bullets := [],
    market_close_date := none, market_close_url := none,
    market_close_summary := none, market_close_bullets := [] }

/-- External-world outcomes seen by one run of `fetch_macro_news`
(`macro_news.py` lines 41-265).  `credsMissing` and `loginFails` happen before
the `try` block and propagate; `morningFails` is an exception anywhere in the
morning phase of the `try` block, `closeFails` one in the market-close phase
(which runs after the morning extraction already succeeded); both are caught
by the function itself.  The extraction results may be `None`. -/
structure MacroEnv where
  credsMissing : Bool
  loginFails : Bool
  morningFails : Bool
  morning_url : String
  morning_date : String
  morningExtract : Option MacroExtract
  closeFails : Bool
  market_close_url : String
  market_close_date : String
  closeExtract : Option MacroExtract

/-- Shallow embedding of `fetch_macro_news` (`macro_news.py` lines 41-265):
login failures propagate; any exception inside the `try` block makes the
function return `MacroNewsSummary()` with every field defaulted, discarding
any morning data already extracted; on full success both phases' dates, URLs,
summaries and (at most 5) bullets are returned. -/
def fetch_macro_news (env : MacroEnv) : Except String MacroNewsSummary :=
  if env.credsMissing then
    Except.error ("Missing Vital_login or Vital_password in .env")
  else if env.loginFails then
    Except.error ("login failed")
  else if env.morningFails then
    Except.ok empty_macro_summary
  else if env.closeFails then
    Except.ok empty_macro_summary
  else
    Except.ok
      { morning_date := some env.morning_date
        morning_url := some env.morning_url
        morning_summary := (env.morningExtract).map (fun r => r.summary)
        morning_bullets :=
          match env.morningExtract with
          | some r => if r.bullets.isEmpty then [] else r.bullets.take 5
          | none => []
        market_close_date := some env.market_close_date
        market_close_url := some env.market_close_url
        market_close_summary := (env.closeExtract).map (fun r => r.summary)
        market_close_bullets :=
          match env.closeExtract with
          | some r => if r.bullets.isEmpty then [] else r.bullets.take 5
          | none => [] }

/-- Shallow embedding of `fetch_macro_news_with_session`
(`run_morning_snapshot.py` lines 86-105): same session-wrapper discipline as
`_run_source_with_session`, around `fetch_macro_news`. -/
def fetch_macro_news_with_session (acquire : Except String Session)
    (env : MacroEnv) (close : Session → Except String Unit) :
    SessionRunResult MacroNewsSummary :=
  match acquire with
  | .error _ => { result := none, sessionClosed := false, closeErrorLogged := none }
  | .ok s =>
    let closeLog : Option String :=
      match close s with
      | .error ce => some ce
      | .ok _ => none
    match fetch_macro_news env with
    | .error _ => { result := none, sessionClosed := true, closeErrorLogged := closeLog }
    | .ok v => { result := some v, sessionClosed := true, closeErrorLogged := closeLog }

/-- Analysis object used as report input
(`run_morning_snapshot.py` lines 379-392 construct `YahooAIAnalysis` with
exactly these fields; the graceful fallback passes the ticker with null
title/summary and an empty bullet list). -/
structure YahooAIAnalysis where
  ticker : String
  title : Option String
  summary : Option String
  bullets : List String
deriving DecidableEq, Repr

/-- The fallback analysis object built when a ticker has no analysis payload
(`run_morning_snapshot.py` lines 385-392). -/
def fallback_analysis (ticker : String) : YahooAIAnalysis :=
  { ticker := ticker, title := none, summary := none, bullets := [] }

/-- One entry of `typed_items`, the report input tuple
`(quote, analysis, marketwatch, googlenews, vital_knowledge)`
(`run_morning_snapshot.py` line 425). -/
structure ReportItem where
  quote : Dump
  analysis : YahooAIAnalysis
  marketwatch : Option Dump
  googlenews : Option Dump
  vital_knowledge : Option VitalKnowledgeReport
deriving DecidableEq, Repr

/-- Report-input entry built from one merged ticker record
(`run_morning_snapshot.py` lines 370-425).  A record with no quote payload is
skipped.  The parse parameters embed the pydantic reconstructions: `pq` and
`pa` are the unguarded `YahooQuoteSnapshot(**...)` / `YahooAIAnalysis(**...)`
calls, and `pmw`, `pgn`, `pvk` the try-guarded optional reconstructions whose
parse failure is treated as absence. -/
def build_report_item (pq : Dump → Dump) (pa : Dump → YahooAIAnalysis)
    (pmw pgn : Dump → Option Dump)
    (pvk : VitalKnowledgeReport → Option VitalKnowledgeReport)
    (item : TickerRecord) : Option ReportItem :=
  match item.quote with
  | none => none
  | some qd =>
    some
      { quote := pq qd
        analysis :=
          match item.analysis with
          | some ad => pa ad
          | none => fallback_analysis item.ticker
        marketwatch :=
          match item.marketwatch with
          | some md => pmw md
          | none => none
        googlenews :=
          match item.googlenews with
          | some gd => pgn gd
          | none => none
        vital_knowledge :=
          match item.vital_knowledge with
          | some vd => pvk vd
          | none => none }

/-- The `typed_items` list the report is rendered from
(`run_morning_snapshot.py` lines 369-425), in watchlist order. -/
def build_typed_items (pq : Dump → Dump) (pa : Dump → YahooAIAnalysis)
    (pmw pgn : Dump → Option Dump)
    (pvk : VitalKnowledgeReport → Option VitalKnowledgeReport)
    (results : List TickerRecord) : List ReportItem :=
  results.filterMap (build_report_item pq pa pmw pgn pvk)

/-- Skip diagnostics printed by the report step for records with no quote
payload (`run_morning_snapshot.py` line 375). -/
def report_skips (results : List TickerRecord) : List String :=
  results.filterMap (fun item =>
    match item.quote with
    | none => some (("[WARN] Skipping ") ++ item.ticker ++ (" in report (no quote data)"))
    | some _ => none)

/-- Values produced by the heterogeneous task list gathered by `main`
(`run_morning_snapshot.py` lines 252-274): per-ticker records, the optional
macro-news result, and the vital-knowledge batch mapping. -/
inductive TaskResult where
  | tickerRes : TickerRecord → TaskResult
  | macroRes : Option MacroNewsSummary → TaskResult
  | vkRes : List (String × VitalKnowledgeReport) → TaskResult
deriving DecidableEq, Repr

/-- Submission-ordered task list built by `main` (`run_morning_snapshot.py`
lines 253-271): one ticker task per watchlist entry, then the macro-news task
if enabled, then the vital-knowledge batch task if enabled. -/
def all_tasks (watchlist : List String) (useMacroNews useVitalNews : Bool)
    (tickerOut : String → TickerRecord) (macroOut : Option MacroNewsSummary)
    (batchOut : List (String × VitalKnowledgeReport)) : List TaskResult :=
  (watchlist.map (fun t => TaskResult.tickerRes (tickerOut t)))
    ++ (if useMacroNews then [TaskResult.macroRes macroOut] else [])
    ++ (if useVitalNews then [TaskResult.vkRes batchOut] else [])

/-- Semantics of `asyncio.gather` under cooperative concurrency: tasks finish
in an arbitrary completion order, each writing its value into the result slot
of its submission index; the gathered list is read out by submission index.
`order` is the sequence of task indices in completion order. -/
def gather_fill (tasks : List TaskResult) (order : List Nat) : List (Option TaskResult) :=
  order.foldl
    (fun acc i =>
      match tasks[i]? with
      | some v => acc.set i (some v)
      | none => acc)
    (List.replicate tasks.length none)

/-- Per-ticker records produced by the scheduler, in watchlist order
(`run_morning_snapshot.py` lines 253-256 and 277). -/
def scheduled_records (watchlist : List String) (cfg : SourceConfig)
    (qf af mf gf : String → SourceRun) : List TickerRecord :=
  watchlist.map (fun t => process_ticker t cfg (qf t) (af t) (mf t) (gf t))

/-- Kinds of concurrent task launched by `main`; only ticker tasks contain the
`async with sem` block (`run_morning_snapshot.py` line 140), the macro-news
and vital-knowledge batch tasks never touch the semaphore. -/
inductive TaskKind where
  | tickerTask
  | macroTask
  | batchTask
deriving DecidableEq, Repr

/-- Whether a task of the given kind ever acquires the concurrency gate. -/
def acquires_gate : TaskKind → Bool
  | .tickerTask => true
  | .macroTask => false
  | .batchTask => false

/-- State of the counting gate (`asyncio.Semaphore`): remaining capacity and
the identifiers of tasks currently holding a slot. -/
structure GateState where
  avail : Nat
  holders : List Nat
deriving DecidableEq, Repr

/-- Small-step semantics of the gate: a task whose kind acquires the gate may
take a slot when capacity remains (`async with sem` entry), and a holder may
release its slot (`async with sem` exit).  `kinds` assigns each task
identifier its kind. -/
inductive GateStep (kinds : Nat → TaskKind) : GateState → GateState → Prop where
  | acquire (s : GateState) (i n : Nat)
      (hk : acquires_gate (kinds i) = true)
      (hn : i ∉ s.holders)
      (ha : s.avail = n + 1) :
      GateStep kinds s { avail := n, holders := i :: s.holders }
  | release (s : GateState) (i : Nat)
      (hm : i ∈ s.holders) :
      GateStep kinds s { avail := s.avail + 1, holders := s.holders.erase i }

/-- States reachable during a run that starts with an idle semaphore of
capacity `C` (`asyncio.Semaphore(max_concurrent)`,
`run_morning_snapshot.py` line 250). -/
def GateReachable (kinds : Nat → TaskKind) (C : Nat) (s : GateState) : Prop :=
  Relation.ReflTransGen (GateStep kinds) { avail := C, holders := [] } s

/-- Embedding of Python `int(raw)` on plain decimal strings: an optional sign
followed by at least one digit parses to the signed value, anything else is a
`ValueError` (`none`). -/
def parse_int? (s : String) : Option Int :=
  match s.data with
  | [] => none
  | c :: rest =>
    let digits := if (c == '-') || (c == '+') then rest else c :: rest
    if digits.isEmpty then none
    else if digits.all (fun d => d.isDigit) then
      some
        (let n : Nat := digits.foldl (fun acc d => acc * 10 + (d.toNat - 48)) 0
         if c == '-' then -(n : Int) else (n : Int))
    else none

/-- Shallow embedding of `_get_max_concurrent_browsers`
(`run_morning_snapshot.py` lines 47-55): a missing or empty variable defaults
to 2, an unparsable value defaults to 2 (the `ValueError` branch), and a
parsed value is clamped below by 1 with `max(1, val)`. -/
def get_max_concurrent_browsers (raw : Option String) : Int :=
  match raw with
  | none => 2
  | some s =>
    if s = ("") then 2
    else
      match parse_int? s with
      | none => 2
      | some v => max 1 v

/-- Task list built by `main` from the watchlist and flags: one
`process_ticker` task per watchlist entry, then the optional macro-news and
vital-knowledge batch tasks (`run_morning_snapshot.py` lines 253-271). -/
def main_all_tasks (watchlist : List String) (cfg : SourceConfig)
    (qf af mf gf : String → SourceRun) (useMacroNews useVitalNews : Bool)
    (macroOut : Option MacroNewsSummary)
    (batchOut : List (String × VitalKnowledgeReport)) : List TaskResult :=
  all_tasks watchlist useMacroNews useVitalNews
    (fun t => process_ticker t cfg (qf t) (af t) (mf t) (gf t)) macroOut batchOut

/-- Concrete truthy fetched value used in example runs. -/
def ok_obj : Obj := { truthy := true, dump := { data := 7 } }

/-- Concrete source attempt whose fetch body raises. -/
def fail_run : SourceRun :=
  { acquire := Except.ok 0
    fetchRes := fun _ => Except.error ("boom")
    closeRes := fun _ => Except.ok () }

/-- Concrete source attempt that succeeds with a truthy value. -/
def ok_run : SourceRun :=
  { acquire := Except.ok 0
    fetchRes := fun _ => Except.ok ok_obj
    closeRes := fun _ => Except.ok () }

/-- Configuration with every source enabled (all flags default to true). -/
def all_sources_on : SourceConfig :=
  { use_yahoo_quote := true, use_yahoo_analysis := true, use_marketwatch := true,
    use_googlenews := true, use_vital_knowledge := true }

/-- Concrete merged record for ticker AAA with a quote payload and no
vital-knowledge payload. -/
def rec_aaa : TickerRecord :=
  { ticker := ("AAA"), error := none, quote := some { data := 1 },
    analysis := none, marketwatch := none, googlenews := none,
    vital_knowledge := none }

/-- Concrete batch environment whose failure happens inside the connector's
`try` block (after login). -/
def body_fail_env : BatchEnv :=
  { credsMissing := false, loginFails := false, bodyFails := true
    morning_date := ("2025-01-01"), market_close_date := ("2025-01-01")
    morningBullets := fun _ => none, closeBullets := fun _ => none
    combinedTop := fun _ => none, summaryFor := fun _ => none }

/-- Concrete batch environment whose failure happens during login, before the
connector's `try` block. -/
def login_fail_env : BatchEnv :=
  { credsMissing := false, loginFails := true, bodyFails := false
    morning_date := ("2025-01-01"), market_close_date := ("2025-01-01")
    morningBullets := fun _ => none, closeBullets := fun _ => none
    combinedTop := fun _ => none, summaryFor := fun _ => none }

/-- Concrete macro-news environment where the morning phase succeeds with real
data and the market-close phase then raises. -/
def macro_close_fail_env : MacroEnv :=
  { credsMissing := false, loginFails := false, morningFails := false
    morning_url := ("https://example.test/morning")
    morning_date := ("2025-01-02")
    morningExtract := some { summary := ("big morning news"), bullets := [("b1"), ("b2")] }
    closeFails := true
    market_close_url := ("https://example.test/close")
    market_close_date := ("2025-01-02")
    closeExtract := none }

/-- Default-initialized report `VitalKnowledgeReport(ticker=...)` built by the
connector's exception path (`research.py` line 328). -/
def vk_empty_report (t : String) : VitalKnowledgeReport :=
  { ticker := t, headlines := [], report_dates := [], summary := none }

/-- Concrete merged record for ticker BBB with no quote payload. -/
def rec_bbb_noquote : TickerRecord :=
  { ticker := ("BBB"), error := some ("YahooQuote failed"), quote := none,
    analysis := some { data := 2 }, marketwatch := none, googlenews := none,
    vital_knowledge := none }

/-- Concrete merged record for ticker AAPL with a quote payload and no
vital-knowledge payload. -/
def rec_aapl : TickerRecord :=
  { ticker := ("AAPL"), error := none, quote := some { data := 3 },
    analysis := none, marketwatch := none, googlenews := none,
    vital_knowledge := none }

/-- A record with a truthy fetched value yields its dump; a missing or falsy
value yields `None`, matching `x.model_dump() if x else None`. -/
theorem dump_if_truthy_ite (b : Bool) (o : Option Obj) :
    dump_if_truthy (if b then o else none) = if b then dump_if_truthy o else none := by
  cases b <;> simp [dump_if_truthy]

/-- A failed fetch body (raise or falsy value) makes the session wrapper's
result falsy. -/
theorem source_result_of_fetch_failed (r : SourceRun) (hf : fetch_failed r) :
    truthy_opt (source_result r) = false := by
  obtain ⟨s, hacq, hcase⟩ := hf
  unfold source_result run_source_with_session
  rw [hacq]
  rcases hcase with ⟨e, hfe⟩ | ⟨v, hfv, htr⟩
  · simp [hfe, truthy_opt]
  · simp [hfv, truthy_opt, htr]

/-- A failed fetch body makes the recorded source payload `None`. -/
theorem source_payload_of_fetch_failed (r : SourceRun) (hf : fetch_failed r) :
    source_payload r = none := by
  have htr := source_result_of_fetch_failed r hf
  unfold source_payload dump_if_truthy
  cases h : source_result r with
  | none => rfl
  | some v =>
    rw [h] at htr
    simp [truthy_opt] at htr
    simp [htr]

/-- C6: for every call of the per-source session wrapper, if a session was
acquired it is closed on every exit path (normal return and any exception
raised by the fetch body); a failure of the close itself is only logged,
never raised, and never replaces the wrapper's result; and if session
acquisition or the fetch body fails, the wrapper returns `None` instead of
propagating the exception.  The macro-news wrapper obeys the same contract. -/
theorem c6_session_wrapper (α : Type) (acquire : Except String Session)
    (fetch : Session → Except String α) (close close₂ : Session → Except String Unit)
    (env : MacroEnv) :
    (∀ s, acquire = Except.ok s →
      (run_source_with_session acquire fetch close).sessionClosed = true
        ∧ (fetch_macro_news_with_session acquire env close).sessionClosed = true)
    ∧ (∀ e, acquire = Except.error e →
      (run_source_with_session acquire fetch close).result = none
        ∧ (run_source_with_session acquire fetch close).sessionClosed = false)
    ∧ (∀ s e, acquire = Except.ok s → fetch s = Except.error e →
      (run_source_with_session acquire fetch close).result = none)
    ∧ (run_source_with_session acquire fetch close).result
        = (run_source_with_session acquire fetch close₂).result
    ∧ (fetch_macro_news_with_session acquire env close).result
        = (fetch_macro_news_with_session acquire env close₂).result
    ∧ (∀ s ce, acquire = Except.ok s → close s = Except.error ce →
      (run_source_with_session acquire fetch close).closeErrorLogged = some ce) := by
  refine ⟨?_, ?_, ?_, ?_, ?_, ?_⟩
  · intro s hs
    subst hs
    cases hf : fetch s <;> cases hm : fetch_macro_news env <;>
      simp [run_source_with_session, fetch_macro_news_with_session, hf, hm]
  · intro e he
    subst he
    simp [run_source_with_session]
  · intro s e hs hf
    subst hs
    simp [run_source_with_session, hf]
  · cases acquire with
    | error e => simp [run_source_with_session]
    | ok s => cases hf : fetch s <;> simp [run_source_with_session, hf]
  · cases acquire with
    | error e => simp [fetch_macro_news_with_session]
    | ok s => cases hm : fetch_macro_news env <;> simp [fetch_macro_news_with_session, hm]
  · intro s ce hs hc
    subst hs
    cases hf : fetch s <;> simp [run_source_with_session, hf, hc]

/-- Claim C6 witness: a wrapper call whose fetch body raises, instantiated
concretely — the session is closed and the result is `None`. -/
theorem c6_witness :
    (run_source_with_session (Except.ok 0)
        (fun _ => (Except.error ("x") : Except String Obj))
        (fun _ => Except.ok ())).sessionClosed = true
    ∧ (run_source_with_session (Except.ok 0)
        (fun _ => (Except.error ("x") : Except String Obj))
        (fun _ => Except.ok ())).result = none := by
  have h := c6_session_wrapper Obj (Except.ok 0)
    (fun _ => (Except.error ("x") : Except String Obj))
    (fun _ => Except.ok ()) (fun _ => Except.ok ()) macro_close_fail_env
  exact ⟨(h.1 0 rfl).1, h.2.2.1 0 ("x") rfl rfl⟩

/-- C1: for every ticker and every enabled per-entity source, if that source's
fetch raises or returns a falsy result, `process_ticker` records `None` for
that source's payload, appends that source's non-empty error message (so the
record's error string is non-null), and every other source's payload slot is
exactly the value computed from that source's own run alone — the failure
neither skips nor disturbs the remaining sources.  `process_ticker` is a total
function, so it never raises. -/
theorem c1_process_ticker_source_failure (ticker : String) (cfg : SourceConfig)
    (qr ar mr gr : SourceRun) (src : Src)
    (hen : src_enabled cfg src = true)
    (hf : fetch_failed (src_run qr ar mr gr src)) :
    src_slot (process_ticker ticker cfg qr ar mr gr) src = none
    ∧ src_err_msg src ∈ process_ticker_errors cfg qr ar mr gr
    ∧ src_err_msg src ≠ ("")
    ∧ (process_ticker ticker cfg qr ar mr gr).error ≠ none
    ∧ (∀ src2, src2 ≠ src →
        src_slot (process_ticker ticker cfg qr ar mr gr) src2 =
          (if src_enabled cfg src2 then source_payload (src_run qr ar mr gr src2)
           else none)) := by
  have htr : truthy_opt (source_result (src_run qr ar mr gr src)) = false :=
    source_result_of_fetch_failed _ hf
  have hsp : source_payload (src_run qr ar mr gr src) = none :=
    source_payload_of_fetch_failed _ hf
  have hmem : src_err_msg src ∈ process_ticker_errors cfg qr ar mr gr := by
    cases src <;>
      simp only [src_run] at htr <;>
      simp only [src_enabled] at hen <;>
      simp [process_ticker_errors, src_err_msg, hen, htr, List.mem_append]
  have hne : process_ticker_errors cfg qr ar mr gr ≠ [] := by
    intro h
    rw [h] at hmem
    simp at hmem
  refine ⟨?_, hmem, ?_, ?_, ?_⟩
  · cases src <;>
      simp only [src_run, source_payload] at hsp <;>
      simp only [src_enabled] at hen <;>
      simp [process_ticker, src_slot, hen, hsp, dump_if_truthy_ite]
  · cases src <;> simp [src_err_msg]
  · simp [process_ticker, hne]
  · intro src2 _
    cases src2 <;>
      simp [process_ticker, src_slot, src_run, src_enabled, source_payload,
        dump_if_truthy_ite]

/-- Claim C1 witness: with every source enabled and a quote fetch that raises,
the quote payload is `None` and the quote error message is recorded. -/
theorem c1_witness :
    fetch_failed fail_run
    ∧ src_slot (process_ticker ("AAPL") all_sources_on fail_run ok_run ok_run ok_run)
        Src.quote = none
    ∧ (("YahooQuote failed")
        ∈ process_ticker_errors all_sources_on fail_run ok_run ok_run ok_run) := by
  have hf : fetch_failed fail_run := ⟨0, rfl, Or.inl ⟨("boom"), rfl⟩⟩
  have h := c1_process_ticker_source_failure ("AAPL") all_sources_on
    fail_run ok_run ok_run ok_run Src.quote rfl hf
  exact ⟨hf, h.1, h.2.1⟩


/-- C2: a merged record whose quote payload is absent contributes nothing to
the report input (and a skip diagnostic is logged for it), while every entry
of the report input comes from a record with a non-null quote payload; the
report input is unchanged when records without a quote are removed. -/
theorem c2_report_quote_filter (pq : Dump → Dump) (pa : Dump → YahooAIAnalysis)
    (pmw pgn : Dump → Option Dump)
    (pvk : VitalKnowledgeReport → Option VitalKnowledgeReport)
    (results : List TickerRecord) :
    (∀ item ∈ results, item.quote = none →
      build_report_item pq pa pmw pgn pvk item = none
        ∧ (("[WARN] Skipping ") ++ item.ticker ++ (" in report (no quote data)"))
            ∈ report_skips results)
    ∧ (∀ item : TickerRecord, build_report_item pq pa pmw pgn pvk item ≠ none →
        ∃ qd, item.quote = some qd)
    ∧ build_typed_items pq pa pmw pgn pvk results
        = build_typed_items pq pa pmw pgn pvk
            (results.filter (fun r => r.quote.isSome)) := by
  refine ⟨?_, ?_, ?_⟩
  · intro item hmem hq
    refine ⟨by simp [build_report_item, hq], ?_⟩
    unfold report_skips
    exact List.mem_filterMap.mpr ⟨item, hmem, by simp [hq]⟩
  · intro item hne
    cases h : item.quote with
    | none => exact absurd (by simp [build_report_item, h]) hne
    | some qd => exact ⟨qd, rfl⟩
  · unfold build_typed_items
    induction results with
    | nil => rfl
    | cons r t ih =>
      cases h : r.quote with
      | none =>
        simp only [List.filter_cons, List.filterMap_cons, build_report_item, h,
          Option.isSome_none, Bool.false_eq_true, if_false]
        exact ih
      | some qd =>
        simp only [List.filter_cons, List.filterMap_cons, build_report_item, h,
          Option.isSome_some, if_true]
        rw [ih]

/-- Claim C2 witness: with one no-quote record and one record with a quote,
the no-quote record is excluded and its skip line is logged. -/
theorem c2_witness :
    build_report_item (fun d => d) (fun _ => fallback_analysis ("Z"))
        (fun d => some d) (fun d => some d) (fun v => some v) rec_bbb_noquote = none
    ∧ (("[WARN] Skipping ") ++ rec_bbb_noquote.ticker ++ (" in report (no quote data)"))
        ∈ report_skips [rec_bbb_noquote, rec_aaa] := by
  have h := c2_report_quote_filter (fun d => d) (fun _ => fallback_analysis ("Z"))
    (fun d => some d) (fun d => some d) (fun v => some v) [rec_bbb_noquote, rec_aaa]
  have h1 := h.1 rec_bbb_noquote (by simp) rfl
  exact ⟨h1.1, h1.2⟩

/-- C3: a merged record with a non-null quote payload and a null analysis
payload appears in the report input, and its analysis section is the fallback
object with the record's ticker, null title, null summary and an empty bullet
list — not a missing section. -/
theorem c3_report_analysis_fallback (pq : Dump → Dump) (pa : Dump → YahooAIAnalysis)
    (pmw pgn : Dump → Option Dump)
    (pvk : VitalKnowledgeReport → Option VitalKnowledgeReport)
    (results : List TickerRecord) (item : TickerRecord)
    (hmem : item ∈ results) (qd : Dump) (hq : item.quote = some qd)
    (ha : item.analysis = none) :
    ∃ ri, build_report_item pq pa pmw pgn pvk item = some ri
      ∧ ri ∈ build_typed_items pq pa pmw pgn pvk results
      ∧ ri.analysis = fallback_analysis item.ticker
      ∧ ri.analysis.title = none
      ∧ ri.analysis.summary = none
      ∧ ri.analysis.bullets = [] := by
  have hb : build_report_item pq pa pmw pgn pvk item =
      some
        { quote := pq qd
          analysis := fallback_analysis item.ticker
          marketwatch :=
            match item.marketwatch with
            | some md => pmw md
            | none => none
          googlenews :=
            match item.googlenews with
            | some gd => pgn gd
            | none => none
          vital_knowledge :=
            match item.vital_knowledge with
            | some vd => pvk vd
            | none => none } := by
    unfold build_report_item
    rw [hq, ha]
  exact ⟨_, hb, List.mem_filterMap.mpr ⟨item, hmem, hb⟩, rfl, rfl, rfl, rfl⟩

/-- Claim C3 witness: the AAA record (quote present, analysis null) yields a
report entry whose analysis is the fallback object. -/
theorem c3_witness :
    ∃ ri, build_report_item (fun d => d) (fun _ => fallback_analysis ("Z"))
        (fun d => some d) (fun d => some d) (fun v => some v) rec_aaa = some ri
      ∧ ri ∈ build_typed_items (fun d => d) (fun _ => fallback_analysis ("Z"))
          (fun d => some d) (fun d => some d) (fun v => some v) [rec_aaa]
      ∧ ri.analysis = fallback_analysis rec_aaa.ticker
      ∧ ri.analysis.title = none
      ∧ ri.analysis.summary = none
      ∧ ri.analysis.bullets = [] :=
  c3_report_analysis_fallback (fun d => d) (fun _ => fallback_analysis ("Z"))
    (fun d => some d) (fun d => some d) (fun v => some v) [rec_aaa] rec_aaa
    (by simp) { data := 1 } rfl rfl

/-- The success-path report of the batch connector carries the upper-cased
input ticker. -/
theorem vk_success_report_ticker (env : BatchEnv) (t : String) :
    (vk_success_report env t).ticker = str_upper t := rfl

/-- The success-path report of the batch connector carries at most five
headlines. -/
theorem vk_success_report_headlines_le (env : BatchEnv) (t : String) :
    (vk_success_report env t).headlines.length ≤ 5 := by
  simp only [vk_success_report, List.length_map]
  split
  · simp
  · exact le_trans (List.length_take_le 5 _) (le_refl 5)

/-- C9: whenever `fetch_vital_knowledge_headlines_batch` returns (success path
or caught-exception path alike), it returns exactly one report per input
ticker, in input order, with the report ticker equal to the upper-cased input
ticker and at most five headlines. -/
theorem c9_batch_shape (env : BatchEnv) (tickers : List String)
    (rs : List VitalKnowledgeReport)
    (h : fetch_vital_knowledge_headlines_batch env tickers = Except.ok rs) :
    rs.length = tickers.length
    ∧ rs.map (fun r => r.ticker) = tickers.map str_upper
    ∧ ∀ r ∈ rs, r.headlines.length ≤ 5 := by
  have hshape : ∀ (f : String → VitalKnowledgeReport),
      (∀ t, (f t).ticker = str_upper t) →
      (∀ t, (f t).headlines.length ≤ 5) →
      rs = tickers.map f →
      rs.length = tickers.length
        ∧ rs.map (fun r => r.ticker) = tickers.map str_upper
        ∧ ∀ r ∈ rs, r.headlines.length ≤ 5 := by
    intro f ht hh heq
    subst heq
    refine ⟨by simp, ?_, ?_⟩
    · simp [List.map_map, Function.comp_def, ht]
    · intro r hr
      obtain ⟨t, _, rfl⟩ := List.mem_map.mp hr
      exact hh t
  unfold fetch_vital_knowledge_headlines_batch at h
  cases hcm : env.credsMissing <;> rw [hcm] at h
  · cases hlf : env.loginFails <;> rw [hlf] at h
    · cases hbf : env.bodyFails <;> rw [hbf] at h
      · simp only [Bool.false_eq_true, if_false, Except.ok.injEq] at h
        exact hshape (vk_success_report env) (vk_success_report_ticker env)
          (vk_success_report_headlines_le env) h.symm
      · simp only [Bool.false_eq_true, if_false, if_true, Except.ok.injEq] at h
        exact hshape _ (fun t => rfl) (fun t => by simp) h.symm
    · simp at h
  · simp at h

/-- Claim C9 witness: the exception path on a concrete two-ticker list yields
two empty reports with upper-cased tickers, each with at most five
headlines. -/
theorem c9_witness :
    [vk_empty_report ("AAPL"), vk_empty_report ("MSFT")].length
        = [("aapl"), ("msft")].length
    ∧ [vk_empty_report ("AAPL"), vk_empty_report ("MSFT")].map (fun r => r.ticker)
        = [("aapl"), ("msft")].map str_upper
    ∧ ∀ r ∈ [vk_empty_report ("AAPL"), vk_empty_report ("MSFT")],
        r.headlines.length ≤ 5 := by
  have h := c9_batch_shape body_fail_env [("aapl"), ("msft")]
    [vk_empty_report ("AAPL"), vk_empty_report ("MSFT")] rfl
  exact h

/-- C10: if any exception is raised inside the main `try` block of
`fetch_macro_news` — in the morning phase, or in the market-close phase after
the morning extraction already succeeded — the function returns a
`MacroNewsSummary` in which every field is `None` or the empty list,
discarding any morning data already extracted. -/
theorem c10_macro_news_all_or_nothing (env : MacroEnv)
    (hc : env.credsMissing = false) (hl : env.loginFails = false)
    (hf : env.morningFails = true ∨ env.closeFails = true) :
    fetch_macro_news env = Except.ok empty_macro_summary
    ∧ empty_macro_summary.morning_date = none
    ∧ empty_macro_summary.morning_url = none
    ∧ empty_macro_summary.morning_summary = none
    ∧ empty_macro_summary.morning_bullets = []
    ∧ empty_macro_summary.market_close_date = none
    ∧ empty_macro_summary.market_close_url = none
    ∧ empty_macro_summary.market_close_summary = none
    ∧ empty_macro_summary.market_close_bullets = [] := by
  refine ⟨?_, rfl, rfl, rfl, rfl, rfl, rfl, rfl, rfl⟩
  unfold fetch_macro_news
  rcases hf with hm | hcl
  · simp [hc, hl, hm]
  · cases hmor : env.morningFails <;> simp [hc, hl, hmor, hcl]

/-- Claim C10 witness: a concrete run whose morning phase succeeded with real
data and whose market-close phase then raised returns the all-empty summary,
discarding the extracted morning data. -/
theorem c10_witness :
    fetch_macro_news macro_close_fail_env = Except.ok empty_macro_summary
    ∧ macro_close_fail_env.morningExtract
        = some { summary := ("big morning news"), bullets := [("b1"), ("b2")] } := by
  have h := c10_macro_news_all_or_nothing macro_close_fail_env rfl rfl (Or.inr rfl)
  exact ⟨h.1, rfl⟩

/-- The merge-loop body never changes a record's ticker. -/
theorem merge_vk_item_ticker (batch : List (String × VitalKnowledgeReport))
    (item : TickerRecord) : (merge_vk_item batch item).ticker = item.ticker := by
  unfold merge_vk_item
  cases dict_get? batch item.ticker <;> rfl

/-- Membership in the batch mapping coincides with a successful lookup, as in
Python `k in d` versus `d[k]`. -/
theorem dict_contains_iff_get (m : List (String × VitalKnowledgeReport)) (k : String) :
    dict_contains m k = true ↔ ∃ r, dict_get? m k = some r := by
  unfold dict_contains dict_get?
  rw [List.any_eq_true]
  constructor
  · rintro ⟨p, hp, hpk⟩
    cases hfind : m.reverse.find? (fun q => q.1 == k) with
    | none =>
      have := List.find?_eq_none.mp hfind p (List.mem_reverse.mpr hp)
      exact absurd hpk this
    | some q => exact ⟨q.2, by simp [hfind]⟩
  · rintro ⟨r, hr⟩
    obtain ⟨q, hq, _⟩ := Option.map_eq_some'.mp hr
    exact ⟨q, List.mem_reverse.mp (List.mem_of_find?_eq_some hq),
      by simpa using List.find?_some hq⟩

/-- Claim C4 counterexample: with a single-ticker watchlist and a batch
connector that fails inside its `try` block (after login), the batch task
yields a non-empty mapping — one fallback entry for the ticker — not an empty
mapping, and the merge step then overwrites the ticker's vital-knowledge slot
with that fallback payload instead of leaving a null payload. -/
theorem c4_batch_failure_counterexample :
    run_vital_knowledge_batch (Except.ok 0) body_fail_env [("AAPL")]
        = [(("AAPL"), vk_empty_report ("AAPL"))]
    ∧ run_vital_knowledge_batch (Except.ok 0) body_fail_env [("AAPL")] ≠ []
    ∧ ((merge_vital_knowledge true
          (run_vital_knowledge_batch (Except.ok 0) body_fail_env [("AAPL")])
          [rec_aapl]).1.map (fun r => r.vital_knowledge))
        = [some (vk_empty_report ("AAPL"))] := by
  refine ⟨rfl, by decide, rfl⟩

/-- C4 (amended): when the batch connector raises before its own `try` block
(missing credentials or a login failure) or session acquisition fails, the
batch task yields an empty mapping, the run does not crash (the merge step is
a total function that leaves every record unchanged, so every ticker's
vital-knowledge payload stays null, with no per-ticker diagnostic); when the
connector fails inside its `try` block, it catches the error itself and the
batch task instead yields one fallback entry per ticker, keyed by the
upper-cased ticker, whose payload has no headlines. -/
theorem c4_batch_failure_amended (acquire : Except String Session) (env : BatchEnv)
    (tickers : List String) :
    ((∃ e, acquire = Except.error e) ∨ env.credsMissing = true
        ∨ (env.credsMissing = false ∧ env.loginFails = true) →
      run_vital_knowledge_batch acquire env tickers = []
        ∧ ∀ results : List TickerRecord,
            merge_vital_knowledge true (run_vital_knowledge_batch acquire env tickers)
              results = (results, []))
    ∧ (∀ s, acquire = Except.ok s → env.credsMissing = false →
        env.loginFails = false → env.bodyFails = true →
        run_vital_knowledge_batch acquire env tickers
          = tickers.map (fun t => (str_upper t, vk_empty_report (str_upper t)))) := by
  constructor
  · intro hcase
    have hempty : run_vital_knowledge_batch acquire env tickers = [] := by
      rcases hcase with ⟨e, he⟩ | hcm | ⟨hcm, hlf⟩
      · simp [run_vital_knowledge_batch, he]
      · cases acquire with
        | error e => simp [run_vital_knowledge_batch]
        | ok s =>
          simp [run_vital_knowledge_batch, fetch_vital_knowledge_headlines_batch, hcm]
      · cases acquire with
        | error e => simp [run_vital_knowledge_batch]
        | ok s =>
          simp [run_vital_knowledge_batch, fetch_vital_knowledge_headlines_batch,
            hcm, hlf]
    refine ⟨hempty, ?_⟩
    intro results
    rw [hempty]
    simp [merge_vital_knowledge]
  · intro s hs hcm hlf hbf
    subst hs
    simp [run_vital_knowledge_batch, fetch_vital_knowledge_headlines_batch,
      hcm, hlf, hbf, vk_empty_report]

/-- Claim C4 witness: a concrete login-phase failure yields the empty mapping
and the merge step leaves the single record unchanged with no diagnostics. -/
theorem c4_witness :
    run_vital_knowledge_batch (Except.ok 0) login_fail_env [("AAPL")] = []
    ∧ merge_vital_knowledge true
        (run_vital_knowledge_batch (Except.ok 0) login_fail_env [("AAPL")])
        [rec_aapl] = ([rec_aapl], []) := by
  have h := (c4_batch_failure_amended (Except.ok 0) login_fail_env [("AAPL")]).1
    (Or.inr (Or.inr ⟨rfl, rfl⟩))
  exact ⟨h.1, h.2 [rec_aapl]⟩

/-- Claim C5 counterexample: with an empty batch mapping (the batch task
failed at login) and watchlist record AAA, the mapping does not contain the
ticker and its slot is left null — but no diagnostic at all is emitted by the
merge step, because the merge loop is skipped for a falsy (empty) mapping;
the claim's "a diagnostic is emitted" fails here. -/
theorem c5_merge_counterexample :
    dict_contains ([] : List (String × VitalKnowledgeReport)) (("AAA")) = false
    ∧ (merge_vital_knowledge true [] [rec_aaa]).1 = [rec_aaa]
    ∧ (merge_vital_knowledge true [] [rec_aaa]).2 = [] :=
  ⟨rfl, rfl, rfl⟩

/-- C5 (amended): during the merge step with vital-knowledge enabled and a
non-empty batch mapping, every watchlist ticker whose (raw) identity is a key
of the mapping has its vital-knowledge slot overwritten with the batch
payload; a ticker absent from the mapping is left unchanged (slot stays null)
and a per-ticker diagnostic is emitted; no ticker is ever dropped and the
order is preserved.  When the batch mapping is empty the merge loop is
skipped entirely: records are unchanged and no per-ticker diagnostic is
emitted.  (The mapping is keyed by the upper-cased ticker while the lookup
uses the raw watchlist ticker.) -/
theorem c5_merge_amended (uv : Bool) (batch : List (String × VitalKnowledgeReport))
    (results : List TickerRecord) :
    (uv = true → batch ≠ [] →
      (merge_vital_knowledge uv batch results).1 = results.map (merge_vk_item batch)
        ∧ (∀ (item : TickerRecord) (r : VitalKnowledgeReport),
            dict_get? batch item.ticker = some r →
            merge_vk_item batch item = { item with vital_knowledge := some r })
        ∧ (∀ item : TickerRecord, dict_get? batch item.ticker = none →
            merge_vk_item batch item = item)
        ∧ (∀ item ∈ results, dict_contains batch item.ticker = false →
            vk_warn item.ticker ∈ (merge_vital_knowledge uv batch results).2))
    ∧ (∀ k, dict_contains batch k = true ↔ ∃ r, dict_get? batch k = some r)
    ∧ (merge_vital_knowledge uv batch results).1.map (fun r => r.ticker)
        = results.map (fun r => r.ticker)
    ∧ (merge_vital_knowledge uv batch results).1.length = results.length
    ∧ (batch = [] → merge_vital_knowledge uv batch results = (results, [])) := by
  refine ⟨?_, dict_contains_iff_get batch, ?_, ?_, ?_⟩
  · intro huv hne
    have hbe : batch.isEmpty = false := by
      cases batch with
      | nil => exact absurd rfl hne
      | cons a t => rfl
    subst huv
    refine ⟨by simp [merge_vital_knowledge, hbe], ?_, ?_, ?_⟩
    · intro item r hr
      unfold merge_vk_item
      rw [hr]
    · intro item hr
      unfold merge_vk_item
      rw [hr]
    · intro item hmem hc
      have : (merge_vital_knowledge true batch results).2
          = results.filterMap (fun item =>
              if dict_contains batch item.ticker then none
              else some (vk_warn item.ticker)) := by
        simp [merge_vital_knowledge, hbe]
      rw [this]
      exact List.mem_filterMap.mpr ⟨item, hmem, by simp [hc]⟩
  · by_cases hcond : (uv && !batch.isEmpty) = true
    · simp [merge_vital_knowledge, hcond, List.map_map, Function.comp_def,
        merge_vk_item_ticker]
    · simp [merge_vital_knowledge, hcond]
  · by_cases hcond : (uv && !batch.isEmpty) = true
    · simp [merge_vital_knowledge, hcond]
    · simp [merge_vital_knowledge, hcond]
  · intro h
    subst h
    simp [merge_vital_knowledge]

/-- Claim C5 witness: with a non-empty mapping containing only AAPL and a
watchlist of AAPL and AAA, AAPL's slot is overwritten, AAA is left null with
its diagnostic emitted, and both tickers survive in order. -/
theorem c5_witness :
    (merge_vital_knowledge true [(("AAPL"), vk_empty_report ("AAPL"))]
        [rec_aapl, rec_aaa]).1
      = [rec_aapl, rec_aaa].map (merge_vk_item [(("AAPL"), vk_empty_report ("AAPL"))])
    ∧ vk_warn rec_aaa.ticker
        ∈ (merge_vital_knowledge true [(("AAPL"), vk_empty_report ("AAPL"))]
            [rec_aapl, rec_aaa]).2
    ∧ (merge_vital_knowledge true [(("AAPL"), vk_empty_report ("AAPL"))]
        [rec_aapl, rec_aaa]).1.map (fun r => r.ticker)
      = [rec_aapl, rec_aaa].map (fun r => r.ticker) := by
  have h := c5_merge_amended true [(("AAPL"), vk_empty_report ("AAPL"))]
    [rec_aapl, rec_aaa]
  have h1 := h.1 rfl (by simp)
  exact ⟨h1.1, h1.2.2.2 rec_aaa (by simp) (by decide), h.2.2.1⟩

/-- Filling result slots in any completion order: a slot holds its task's
value once that task's index has completed, and is otherwise untouched. -/
theorem gather_fill_aux (tasks : List TaskResult) (order : List Nat) :
    ∀ acc : List (Option TaskResult), acc.length = tasks.length →
      ∀ j, (List.foldl (fun acc i =>
            match tasks[i]? with
            | some v => acc.set i (some v)
            | none => acc) acc order)[j]?
        = if j ∈ order ∧ j < tasks.length then (tasks[j]?).map some else acc[j]? := by
  induction order with
  | nil =>
    intro acc _ j
    simp
  | cons i rest ih =>
    intro acc hlen j
    rw [List.foldl_cons]
    have hlen2 : (match tasks[i]? with
        | some v => acc.set i (some v)
        | none => acc).length = tasks.length := by
      cases tasks[i]? <;> simp [hlen]
    rw [ih _ hlen2 j]
    by_cases hjn : j < tasks.length
    · by_cases hjr : j ∈ rest
      · simp [hjr, hjn, List.mem_cons]
      · by_cases hji : j = i
        · subst hji
          have hsome : tasks[j]? = some tasks[j] := List.getElem?_eq_getElem hjn
          simp only [hjr, hjn, List.mem_cons, false_and, if_false, true_or,
            true_and, if_true, or_false, hsome]
          rw [List.getElem?_set]
          simp [hlen, hjn]
        · have hmc : ¬ j ∈ i :: rest := by
            intro hc
            rcases List.mem_cons.mp hc with h1 | h2
            · exact hji h1
            · exact hjr h2
          simp only [hjr, hmc, false_and, if_false]
          cases h : tasks[i]? with
          | none => rfl
          | some v => exact List.getElem?_set_ne (fun he => hji he.symm)
    · have hcov1 : ¬ (j ∈ rest ∧ j < tasks.length) := fun hc => hjn hc.2
      have hcov2 : ¬ (j ∈ i :: rest ∧ j < tasks.length) := fun hc => hjn hc.2
      simp only [hcov1, hcov2, if_false]
      cases h : tasks[i]? with
      | none => rfl
      | some v =>
        have hi : i < tasks.length := by
          by_contra hni
          rw [List.getElem?_eq_none (by omega)] at h
          exact Option.noConfusion h
        exact List.getElem?_set_ne (by omega)

/-- Regardless of the completion order, as long as every task index
eventually completes, the gathered result list equals the task values in
submission order. -/
theorem gather_fill_eq (tasks : List TaskResult) (order : List Nat)
    (hcov : ∀ i, i < tasks.length → i ∈ order) :
    gather_fill tasks order = tasks.map some := by
  apply List.ext_getElem?
  intro j
  unfold gather_fill
  rw [gather_fill_aux tasks order _ (by simp) j, List.getElem?_map]
  by_cases hj : j < tasks.length
  · simp [hcov j hj, hj]
  · rw [List.getElem?_replicate]
    simp only [hj, and_false, if_false]
    rw [List.getElem?_eq_none (by omega)]
    simp

/-- C7: for any watchlist and any completion order of the concurrent tasks,
the gathered results equal the submitted tasks in submission order; the first
`watchlist.length` entries are exactly the per-ticker records in watchlist
order (same length, same tickers); and the macro-news and vital-knowledge
batch outputs sit at the fixed indices after the ticker block, so separating
them never disturbs the per-ticker order. -/
theorem c7_scheduler_order (watchlist : List String) (cfg : SourceConfig)
    (qf af mf gf : String → SourceRun) (useMacroNews useVitalNews : Bool)
    (macroOut : Option MacroNewsSummary)
    (batchOut : List (String × VitalKnowledgeReport)) (order : List Nat)
    (hcov : ∀ i, i < (main_all_tasks watchlist cfg qf af mf gf useMacroNews
        useVitalNews macroOut batchOut).length → i ∈ order) :
    gather_fill (main_all_tasks watchlist cfg qf af mf gf useMacroNews
        useVitalNews macroOut batchOut) order
      = (main_all_tasks watchlist cfg qf af mf gf useMacroNews
          useVitalNews macroOut batchOut).map some
    ∧ (main_all_tasks watchlist cfg qf af mf gf useMacroNews
        useVitalNews macroOut batchOut).take watchlist.length
      = (scheduled_records watchlist cfg qf af mf gf).map TaskResult.tickerRes
    ∧ (scheduled_records watchlist cfg qf af mf gf).map (fun r => r.ticker)
      = watchlist
    ∧ (scheduled_records watchlist cfg qf af mf gf).length = watchlist.length
    ∧ (useMacroNews = true →
        (main_all_tasks watchlist cfg qf af mf gf useMacroNews useVitalNews
          macroOut batchOut)[watchlist.length]?
          = some (TaskResult.macroRes macroOut))
    ∧ (useMacroNews = true → useVitalNews = true →
        (main_all_tasks watchlist cfg qf af mf gf useMacroNews useVitalNews
          macroOut batchOut)[watchlist.length + 1]?
          = some (TaskResult.vkRes batchOut))
    ∧ (useMacroNews = false → useVitalNews = true →
        (main_all_tasks watchlist cfg qf af mf gf useMacroNews useVitalNews
          macroOut batchOut)[watchlist.length]?
          = some (TaskResult.vkRes batchOut)) := by
  have hmaplen : ∀ f : String → TickerRecord,
      (watchlist.map (fun t => TaskResult.tickerRes (f t))).length
        = watchlist.length := by
    intro f
    simp
  refine ⟨gather_fill_eq _ order hcov, ?_, ?_, by simp [scheduled_records], ?_, ?_, ?_⟩
  · unfold main_all_tasks all_tasks
    rw [List.append_assoc]
    rw [← hmaplen (fun t => process_ticker t cfg (qf t) (af t) (mf t) (gf t))]
    rw [List.take_left]
    simp [scheduled_records, List.map_map, Function.comp_def]
  · simp [scheduled_records, List.map_map, Function.comp_def, process_ticker]
  · intro hum
    subst hum
    unfold main_all_tasks all_tasks
    rw [List.append_assoc]
    rw [List.getElem?_append_right (le_of_eq (hmaplen _))]
    simp [hmaplen]
  · intro hum huv
    subst hum
    subst huv
    unfold main_all_tasks all_tasks
    rw [List.append_assoc]
    rw [List.getElem?_append_right (by rw [hmaplen]; omega)]
    simp [hmaplen]
  · intro hum huv
    subst hum
    subst huv
    unfold main_all_tasks all_tasks
    rw [List.append_assoc]
    rw [List.getElem?_append_right (le_of_eq (hmaplen _))]
    simp [hmaplen]

/-- Claim C7 witness: a concrete two-ticker watchlist with both batch tasks
enabled and a scrambled completion order still yields the per-ticker records
in watchlist order, and gathering is completion-order independent. -/
theorem c7_witness :
    gather_fill (main_all_tasks [("AAA"), ("BBB")] all_sources_on
        (fun _ => ok_run) (fun _ => ok_run) (fun _ => ok_run) (fun _ => ok_run)
        true true none []) [3, 1, 0, 2]
      = (main_all_tasks [("AAA"), ("BBB")] all_sources_on
          (fun _ => ok_run) (fun _ => ok_run) (fun _ => ok_run) (fun _ => ok_run)
          true true none []).map some
    ∧ (scheduled_records [("AAA"), ("BBB")] all_sources_on
        (fun _ => ok_run) (fun _ => ok_run) (fun _ => ok_run) (fun _ => ok_run)).map
          (fun r => r.ticker)
      = [("AAA"), ("BBB")]
    ∧ (main_all_tasks [("AAA"), ("BBB")] all_sources_on
        (fun _ => ok_run) (fun _ => ok_run) (fun _ => ok_run) (fun _ => ok_run)
        true true none [])[2]?
      = some (TaskResult.macroRes none) := by
  have h := c7_scheduler_order [("AAA"), ("BBB")] all_sources_on
    (fun _ => ok_run) (fun _ => ok_run) (fun _ => ok_run) (fun _ => ok_run)
    true true none [] [3, 1, 0, 2] (by decide)
  exact ⟨h.1, h.2.2.1, h.2.2.2.2.1 rfl⟩

/-- Inductive invariant of the concurrency gate: the holder list has no
duplicates, holders plus remaining capacity equals the configured ceiling,
and every holder is a task whose kind acquires the gate. -/
theorem gate_invariant (kinds : Nat → TaskKind) (C : Nat) (s : GateState)
    (h : GateReachable kinds C s) :
    s.holders.Nodup ∧ s.holders.length + s.avail = C
      ∧ ∀ i ∈ s.holders, acquires_gate (kinds i) = true := by
  induction h with
  | refl => exact ⟨List.nodup_nil, by simp, by simp⟩
  | tail hr hstep ih =>
    obtain ⟨hnd, hsum, hflag⟩ := ih
    cases hstep with
    | acquire i n hk hn ha =>
      refine ⟨List.nodup_cons.mpr ⟨hn, hnd⟩, ?_, ?_⟩
      · simp only [List.length_cons]
        omega
      · intro j hj
        rcases List.mem_cons.mp hj with h1 | h2
        · subst h1
          exact hk
        · exact hflag j h2
    | release i hm =>
      refine ⟨hnd.erase i, ?_, ?_⟩
      · have hpos : 0 < _ := List.length_pos_of_mem hm
        have herase := List.length_erase_of_mem hm
        simp only [herase]
        omega
      · intro j hj
        exact hflag j (List.mem_of_mem_erase hj)

/-- C8: the effective concurrency ceiling is always at least 1 and defaults
to 2 whenever the configuration value is missing, empty or unparsable; and in
every reachable state of a run started with an idle gate of capacity `C`, at
most `C` tasks hold the gate and every holder is a ticker task — the
macro-news and vital-knowledge batch tasks never hold the gate. -/
theorem c8_concurrency_gate :
    (∀ raw, 1 ≤ get_max_concurrent_browsers raw)
    ∧ get_max_concurrent_browsers none = 2
    ∧ get_max_concurrent_browsers (some ("")) = 2
    ∧ (∀ s : String, s ≠ ("") → parse_int? s = none →
        get_max_concurrent_browsers (some s) = 2)
    ∧ (∀ (kinds : Nat → TaskKind) (C : Nat) (s : GateState),
        GateReachable kinds C s →
          s.holders.length ≤ C
            ∧ ∀ i ∈ s.holders, kinds i = TaskKind.tickerTask) := by
  refine ⟨?_, rfl, rfl, ?_, ?_⟩
  · intro raw
    unfold get_max_concurrent_browsers
    cases raw with
    | none => decide
    | some s =>
      by_cases hs : s = ("")
      · simp [hs]
      · simp only [hs, if_false]
        cases h : parse_int? s with
        | none => decide
        | some v => exact le_max_left 1 v
  · intro s hs hp
    simp [get_max_concurrent_browsers, hs, hp]
  · intro kinds C s hr
    obtain ⟨_, hsum, hflag⟩ := gate_invariant kinds C s hr
    refine ⟨by omega, ?_⟩
    intro i hi
    have hacq := hflag i hi
    cases hk : kinds i
    · rfl
    · rw [hk] at hacq
      exact absurd hacq (by simp [acquires_gate])
    · rw [hk] at hacq
      exact absurd hacq (by simp [acquires_gate])

/-- Claim C8 witness: concrete ceiling values (an unparsable setting defaults
to 2, a parsed negative value is clamped to 1) and the initial gate state of
a capacity-2 run, in which no more than 2 holders are possible. -/
theorem c8_witness :
    1 ≤ get_max_concurrent_browsers (some ("abc"))
    ∧ get_max_concurrent_browsers none = 2
    ∧ get_max_concurrent_browsers (some ("abc")) = 2
    ∧ ({ avail := 2, holders := [] } : GateState).holders.length ≤ 2 := by
  have h := c8_concurrency_gate
  exact ⟨h.1 (some ("abc")), h.2.1, h.2.2.2.1 ("abc") (by decide) (by decide),
    (h.2.2.2.2 (fun _ => TaskKind.tickerTask) 2 { avail := 2, holders := [] }
      Relation.ReflTransGen.refl).1⟩
